import Mathlib

/-
Verification development for the cognition-curator spaced-repetition core
(`src/server/src/models/flashcard.py`, `analytics.py`, `deck.py`, and the
review API in `src/server/src/api/flashcards.py`).

Python floats are modelled as exact rationals (ℚ), machine integers as ℤ/ℕ.
`int(x)` on a float is truncation toward zero (`pyTrunc`).  The single random
step (`random.randint(-variance, variance)` in `_schedule_next_review`) is
modelled by an explicit jitter-offset parameter; the code consults the random
source only when `variance > 0`, which the model mirrors by ignoring the
offset when the variance is zero.
-/

/-- Card status enum (`CardStatus` in `flashcard.py`). -/
inductive CardStatus
  | new
  | learning
  | review
  | mastered
  deriving DecidableEq

/-- Review grades (`DifficultyLevel` in `flashcard.py`): AGAIN=1, HARD=2,
GOOD=3, EASY=4. -/
inductive DifficultyLevel
  | again
  | hard
  | good
  | easy
  deriving DecidableEq

/-- The scheduling-relevant state of a flashcard (the mutable fields of the
`Flashcard` model touched by `review_card` and its helpers). -/
structure Flashcard where
  status : CardStatus
  ease_factor : ℚ
  interval_days : ℤ
  repetitions : ℕ
  total_reviews : ℕ
  correct_reviews : ℕ
  streak_correct : ℕ
  longest_streak : ℕ
  total_study_time_seconds : ℚ
  average_response_time_seconds : ℚ
  perceived_difficulty : ℚ
  learning_velocity : ℚ
  mistake_count : ℕ
  deriving DecidableEq

/-- A freshly created card: the column defaults of the `Flashcard` model
(status NEW, ease 2.5, interval 0, repetitions 0, learning_velocity 1.0,
all counters 0). -/
def initCard : Flashcard :=
  { status := CardStatus.new
    ease_factor := 5/2
    interval_days := 0
    repetitions := 0
    total_reviews := 0
    correct_reviews := 0
    streak_correct := 0
    longest_streak := 0
    total_study_time_seconds := 0
    average_response_time_seconds := 0
    perceived_difficulty := 0
    learning_velocity := 1
    mistake_count := 0 }

/-- Python `int()` applied to a float: truncation toward zero. -/
def pyTrunc (q : ℚ) : ℤ :=
  if 0 ≤ q then ⌊q⌋ else ⌈q⌉

/-- Accuracy rate, `Flashcard.get_accuracy_rate`: `correct_reviews / total_reviews`,
0 when there are no reviews. -/
def get_accuracy_rate (c : Flashcard) : ℚ :=
  if c.total_reviews = 0 then 0
  else (c.correct_reviews : ℚ) / (c.total_reviews : ℚ)

/-- The response-time bookkeeping at the top of `Flashcard.review_card`:
`if response_time_seconds:` (Python truthiness: skipped for `None` and for 0)
then `total_study_time_seconds += response_time_seconds` and, if
`total_reviews > 0`, `average_response_time_seconds =
total_study_time_seconds / total_reviews`. -/
def applyResponseTime (c : Flashcard) (rt : Option ℚ) : Flashcard :=
  match rt with
  | none => c
  | some t =>
    if t = 0 then c
    else if 0 < c.total_reviews then
      { c with
        total_study_time_seconds := c.total_study_time_seconds + t
        average_response_time_seconds :=
          (c.total_study_time_seconds + t) / (c.total_reviews : ℚ) }
    else
      { c with total_study_time_seconds := c.total_study_time_seconds + t }

/-- Model of `Flashcard._handle_correct_review` (grades HARD/GOOD/EASY). -/
def handle_correct_review (c : Flashcard) (d : DifficultyLevel) : Flashcard :=
  let ef1 : ℚ :=
    match d with
    | DifficultyLevel.easy => c.ease_factor + 15/100
    | DifficultyLevel.good => c.ease_factor
    | DifficultyLevel.hard => c.ease_factor - 15/100
    | DifficultyLevel.again => c.ease_factor
  let lv1 : ℚ :=
    match d with
    | DifficultyLevel.easy => min 2 (c.learning_velocity + 1/10)
    | DifficultyLevel.hard => max (1/2) (c.learning_velocity - 1/20)
    | _ => c.learning_velocity
  let ds : ℚ :=
    match d with
    | DifficultyLevel.easy => 2/10
    | DifficultyLevel.good => 5/10
    | DifficultyLevel.hard => 8/10
    | DifficultyLevel.again => 5/10
  { c with
    correct_reviews := c.correct_reviews + 1
    streak_correct := c.streak_correct + 1
    longest_streak := max c.longest_streak (c.streak_correct + 1)
    ease_factor := max (13/10) (min 3 ef1)
    learning_velocity := lv1
    perceived_difficulty := (7/10) * c.perceived_difficulty + (3/10) * ds
    repetitions := c.repetitions + 1 }

/-- Model of `Flashcard._handle_incorrect_review` (grade AGAIN).  Note the ease-factor
penalty tests the already-incremented mistake count. -/
def handle_incorrect_review (c : Flashcard) : Flashcard :=
  { c with
    streak_correct := 0
    mistake_count := c.mistake_count + 1
    repetitions := 0
    perceived_difficulty := (6/10) * c.perceived_difficulty + (4/10) * 1
    learning_velocity := max (3/10) (c.learning_velocity - 1/10)
    ease_factor :=
      if 3 < c.mistake_count + 1 then max (13/10) (c.ease_factor - 2/10)
      else c.ease_factor }

/-- Model of `Flashcard._update_card_status`. -/
def update_card_status (c : Flashcard) : Flashcard :=
  { c with
    status :=
      if c.repetitions = 0 then
        if c.total_reviews = 0 then CardStatus.new else CardStatus.learning
      else if c.repetitions < 3 then CardStatus.learning
      else if 2 ≤ c.ease_factor ∧ 8/10 ≤ get_accuracy_rate c then
        CardStatus.mastered
      else CardStatus.review }

/-- The interval computed by the first branch of
`Flashcard._schedule_next_review`, before jitter and clamping:
1 for AGAIN, 1 when `repetitions == 1`, 6 when `repetitions == 2`, otherwise
`max(1, int(interval_days * ease_factor * learning_velocity))`. -/
def preJitterInterval (c : Flashcard) (d : DifficultyLevel) : ℤ :=
  match d with
  | DifficultyLevel.again => 1
  | _ =>
    if c.repetitions = 1 then 1
    else if c.repetitions = 2 then 6
    else
      max 1 (pyTrunc ((c.interval_days : ℚ) * c.ease_factor * c.learning_velocity))

/-- The jitter variance `variance = int(interval_days * 0.1)` of `_schedule_next_review`. -/
def jitterVariance (base : ℤ) : ℤ :=
  pyTrunc ((base : ℚ) * (1/10))

/-- Model of `Flashcard._schedule_next_review`: base interval, ±variance jitter (the
random source is consulted only when `variance > 0`; `off` stands for the
drawn `random.randint(-variance, variance)`), then clamping to `[1, 365]`. -/
def schedule_next_review (c : Flashcard) (d : DifficultyLevel) (off : ℤ) :
    Flashcard :=
  let base := preJitterInterval c d
  let v := jitterVariance base
  let j := if 0 < v then base + off else base
  { c with interval_days := min (max 1 j) 365 }

/-- Model of `Flashcard.review_card` up to (but not including) `_schedule_next_review`:
increment `total_reviews`, fold in the response time, dispatch on AGAIN versus
correct grades, and recompute the status. -/
def reviewedPreSchedule (c : Flashcard) (d : DifficultyLevel) (rt : Option ℚ) :
    Flashcard :=
  let c1 := { c with total_reviews := c.total_reviews + 1 }
  let c2 := applyResponseTime c1 rt
  let c3 :=
    match d with
    | DifficultyLevel.again => handle_incorrect_review c2
    | _ => handle_correct_review c2 d
  update_card_status c3

/-- Model of `Flashcard.review_card`: the full review step, with the jitter draw made
explicit as `off`. -/
def review_card (c : Flashcard) (d : DifficultyLevel) (rt : Option ℚ)
    (off : ℤ) : Flashcard :=
  schedule_next_review (reviewedPreSchedule c d rt) d off

/-- One submitted review: a grade, an optional response time, and the jitter
draw used by `_schedule_next_review` for that review. -/
structure Review where
  grade : DifficultyLevel
  rt : Option ℚ
  off : ℤ

/-- Apply a sequence of reviews to a card, left to right. -/
def applyReviews (c : Flashcard) (rs : List Review) : Flashcard :=
  rs.foldl (fun a r => review_card a r.grade r.rt r.off) c

/-- The status graph literally named by the spec sentence
New → Learning → (Review ⇄ Mastered), together with staying in place:
the forward edges plus the Review/Mastered exchange. -/
def specStatusGraph (a b : CardStatus) : Prop :=
  a = b ∨
  (a = CardStatus.new ∧ b = CardStatus.learning) ∨
  (a = CardStatus.learning ∧ b = CardStatus.review) ∨
  (a = CardStatus.learning ∧ b = CardStatus.mastered) ∨
  (a = CardStatus.review ∧ b = CardStatus.mastered) ∨
  (a = CardStatus.mastered ∧ b = CardStatus.review)

instance (a b : CardStatus) : Decidable (specStatusGraph a b) := by
  unfold specStatusGraph
  infer_instance

/-- The spec graph extended with the lapse regressions the code actually
performs: a Review or Mastered card graded AGAIN drops back to Learning. -/
def lapseStatusGraph (a b : CardStatus) : Prop :=
  specStatusGraph a b ∨
  (a = CardStatus.review ∧ b = CardStatus.learning) ∨
  (a = CardStatus.mastered ∧ b = CardStatus.learning)

instance (a b : CardStatus) : Decidable (lapseStatusGraph a b) := by
  unfold lapseStatusGraph
  infer_instance

/-- The session state relevant to closing (`StudySession` in `analytics.py`):
performance counters, the two derived scores, and the duration set at close
time.  Column defaults are all zero. -/
structure StudySession where
  cards_reviewed : ℕ
  cards_correct : ℕ
  cards_incorrect : ℕ
  cards_graduated : ℕ
  cards_mastered : ℕ
  accuracy_rate : ℚ
  focus_score : ℚ
  duration_minutes : ℕ
  session_quality_score : ℚ
  ended : Bool
  deriving DecidableEq

/-- A freshly opened session: the column defaults of `StudySession`
(all counters 0, scores 0, not ended). -/
def initSession : StudySession :=
  { cards_reviewed := 0
    cards_correct := 0
    cards_incorrect := 0
    cards_graduated := 0
    cards_mastered := 0
    accuracy_rate := 0
    focus_score := 0
    duration_minutes := 0
    session_quality_score := 0
    ended := false }

/-- The duration factor of `StudySession._calculate_quality_score`:
1 for 15-45 minutes, `duration/15` below, `max(0.3, 45/duration)` above. -/
def duration_factor (m : ℕ) : ℚ :=
  if 15 ≤ m ∧ m ≤ 45 then 1
  else if m < 15 then (m : ℚ) / 15
  else max (3/10) (45 / (m : ℚ))

/-- Model of `StudySession._calculate_quality_score`: weighted sum of accuracy (0.4),
duration factor (0.2), focus score (0.2) and progress factor (0.2). -/
def calculate_quality_score (s : StudySession) : ℚ :=
  s.accuracy_rate * (4/10) +
  duration_factor s.duration_minutes * (2/10) +
  s.focus_score * (2/10) +
  (if 0 < s.cards_reviewed then
      ((s.cards_graduated : ℚ) + (s.cards_mastered : ℚ)) / (s.cards_reviewed : ℚ)
    else 0) * (2/10)

/-- Model of `StudySession.end_session`, with the wall-clock session length (in whole
minutes, as computed by `int(total_seconds / 60)`) passed explicitly:
stamp the end time and duration if not already ended, recompute the accuracy
rate when any card was reviewed, then compute the quality score. -/
def end_session (s : StudySession) (elapsed_minutes : ℕ) : StudySession :=
  let s1 :=
    if s.ended then s
    else { s with ended := true, duration_minutes := elapsed_minutes }
  let s2 :=
    if 0 < s1.cards_reviewed then
      { s1 with accuracy_rate := (s1.cards_correct : ℚ) / (s1.cards_reviewed : ℚ) }
    else s1
  { s2 with session_quality_score := calculate_quality_score s2 }

/-- The card fields `Deck.update_card_counts` reads: status, the active flag,
and the due predicate `next_review_date <= now` evaluated at a fixed time. -/
structure CardRow where
  status : CardStatus
  is_active : Bool
  due : Bool
  deriving DecidableEq

/-- The cached per-deck counters written by `Deck.update_card_counts`. -/
structure DeckCounts where
  total_cards : ℕ
  cards_due_count : ℕ
  cards_new_count : ℕ
  cards_learning_count : ℕ
  cards_mastered_count : ℕ
  deriving DecidableEq

/-- Model of `Deck.update_card_counts`: reset the cached counters and recount them
from the current card population (active cards grouped by status, active
cards overall, active cards currently due). -/
def update_card_counts (d : DeckCounts) (cards : List CardRow) : DeckCounts :=
  let active := cards.filter (fun c => c.is_active)
  { total_cards := active.length
    cards_new_count := (active.filter (fun c => c.status = CardStatus.new)).length
    cards_learning_count :=
      (active.filter (fun c => c.status = CardStatus.learning)).length
    cards_mastered_count :=
      (active.filter (fun c => c.status = CardStatus.mastered)).length
    cards_due_count := (active.filter (fun c => c.due)).length }

lemma applyResponseTime_ease (c : Flashcard) (rt : Option ℚ) :
    (applyResponseTime c rt).ease_factor = c.ease_factor := by
  cases rt with
  | none => rfl
  | some t => simp only [applyResponseTime]; split_ifs <;> rfl

lemma applyResponseTime_total (c : Flashcard) (rt : Option ℚ) :
    (applyResponseTime c rt).total_reviews = c.total_reviews := by
  cases rt with
  | none => rfl
  | some t => simp only [applyResponseTime]; split_ifs <;> rfl

lemma applyResponseTime_reps (c : Flashcard) (rt : Option ℚ) :
    (applyResponseTime c rt).repetitions = c.repetitions := by
  cases rt with
  | none => rfl
  | some t => simp only [applyResponseTime]; split_ifs <;> rfl

lemma applyResponseTime_mistakes (c : Flashcard) (rt : Option ℚ) :
    (applyResponseTime c rt).mistake_count = c.mistake_count := by
  cases rt with
  | none => rfl
  | some t => simp only [applyResponseTime]; split_ifs <;> rfl

lemma review_card_ease (c : Flashcard) (d : DifficultyLevel) (rt : Option ℚ) (off : ℤ) :
    (review_card c d rt off).ease_factor =
      match d with
      | DifficultyLevel.again =>
        if 3 < c.mistake_count + 1 then max (13/10) (c.ease_factor - 2/10)
        else c.ease_factor
      | DifficultyLevel.easy => max (13/10) (min 3 (c.ease_factor + 15/100))
      | DifficultyLevel.good => max (13/10) (min 3 c.ease_factor)
      | DifficultyLevel.hard => max (13/10) (min 3 (c.ease_factor - 15/100)) := by
  cases d <;>
    simp [review_card, schedule_next_review, reviewedPreSchedule, update_card_status,
      handle_incorrect_review, handle_correct_review, applyResponseTime_ease,
      applyResponseTime_mistakes]

lemma ease_bounds_step (c : Flashcard) (d : DifficultyLevel) (rt : Option ℚ) (off : ℤ)
    (h1 : 13/10 ≤ c.ease_factor) (h2 : c.ease_factor ≤ 3) :
    13/10 ≤ (review_card c d rt off).ease_factor ∧
      (review_card c d rt off).ease_factor ≤ 3 := by
  rw [review_card_ease]
  cases d with
  | again =>
    split_ifs with h
    · exact ⟨le_max_left _ _, max_le (by norm_num) (by linarith)⟩
    · exact ⟨h1, h2⟩
  | hard => exact ⟨le_max_left _ _, max_le (by norm_num) (min_le_left _ _)⟩
  | good => exact ⟨le_max_left _ _, max_le (by norm_num) (min_le_left _ _)⟩
  | easy => exact ⟨le_max_left _ _, max_le (by norm_num) (min_le_left _ _)⟩

lemma ease_bounds_applyReviews (rs : List Review) (c : Flashcard)
    (h1 : 13/10 ≤ c.ease_factor) (h2 : c.ease_factor ≤ 3) :
    13/10 ≤ (applyReviews c rs).ease_factor ∧ (applyReviews c rs).ease_factor ≤ 3 := by
  induction rs generalizing c with
  | nil => exact ⟨h1, h2⟩
  | cons r rs ih =>
    have h := ease_bounds_step c r.grade r.rt r.off h1 h2
    exact ih _ h.1 h.2

/-- Claim C2: starting from the initial state (ease_factor 2.5), the ease
factor stays in [1.3, 3.0] after every review of any finite review sequence
(every intermediate state is itself `applyReviews initCard rs` for a prefix
`rs`, so quantifying over all sequences covers every intermediate state). -/
theorem c2_ease_factor_invariant (rs : List Review) :
    13/10 ≤ (applyReviews initCard rs).ease_factor ∧
      (applyReviews initCard rs).ease_factor ≤ 3 :=
  ease_bounds_applyReviews rs initCard (by norm_num [initCard]) (by norm_num [initCard])

/-- Claim C3: after any single review of any card the interval lies in
[1, 365], and a review graded AGAIN leaves the repetition count at 0 (every
"state after a review" is `review_card` of some card, so the single-step
statement covers every review of every sequence). -/
theorem c3_interval_bounds_and_again_resets (c : Flashcard) (rt : Option ℚ) (off : ℤ) :
    (∀ d, 1 ≤ (review_card c d rt off).interval_days ∧
        (review_card c d rt off).interval_days ≤ 365) ∧
      (review_card c DifficultyLevel.again rt off).repetitions = 0 := by
  constructor
  · intro d
    constructor
    · show (1:ℤ) ≤ (schedule_next_review _ d off).interval_days
      simp only [schedule_next_review]
      exact le_min (le_max_left _ _) (by norm_num)
    · show (schedule_next_review _ d off).interval_days ≤ 365
      simp only [schedule_next_review]
      exact min_le_right _ _
  · show (schedule_next_review (reviewedPreSchedule c DifficultyLevel.again rt) _ off).repetitions = 0
    simp [schedule_next_review, reviewedPreSchedule, update_card_status,
      handle_incorrect_review]

/-- Claim C9: deck stats recomputation is idempotent — recomputing twice from
the same card population (with the due predicate evaluated at the same fixed
time) yields the same snapshot, because `update_card_counts` resets every
cached counter and recounts from the card list alone. -/
theorem c9_update_card_counts_idempotent (d : DeckCounts) (cards : List CardRow) :
    update_card_counts (update_card_counts d cards) cards = update_card_counts d cards := rfl

lemma one_le_preJitterInterval (c : Flashcard) (d : DifficultyLevel) :
    1 ≤ preJitterInterval c d := by
  cases d with
  | again => norm_num [preJitterInterval]
  | hard =>
    simp only [preJitterInterval]
    split_ifs <;> norm_num
  | good =>
    simp only [preJitterInterval]
    split_ifs <;> norm_num
  | easy =>
    simp only [preJitterInterval]
    split_ifs <;> norm_num

/-- Claim C10: when the pre-jitter interval is at most 9 days the computed
variance `int(interval * 0.1)` is 0, the random source is never consulted,
and the review result is independent of the jitter draw; in particular the
1-day and 6-day early intervals are exact. -/
theorem c10_small_intervals_deterministic (c : Flashcard) (d : DifficultyLevel)
    (rt : Option ℚ) (off1 off2 : ℤ)
    (h : preJitterInterval (reviewedPreSchedule c d rt) d ≤ 9) :
    jitterVariance (preJitterInterval (reviewedPreSchedule c d rt) d) = 0 ∧
      review_card c d rt off1 = review_card c d rt off2 := by
  have h1 : 1 ≤ preJitterInterval (reviewedPreSchedule c d rt) d :=
    one_le_preJitterInterval _ _
  have hv : jitterVariance (preJitterInterval (reviewedPreSchedule c d rt) d) = 0 := by
    unfold jitterVariance pyTrunc
    have hb0 : (0:ℚ) ≤ (preJitterInterval (reviewedPreSchedule c d rt) d : ℚ) * (1/10) := by
      have : (0:ℚ) ≤ (preJitterInterval (reviewedPreSchedule c d rt) d : ℚ) := by
        exact_mod_cast le_trans (by norm_num) h1
      linarith
    rw [if_pos hb0, Int.floor_eq_zero_iff, Set.mem_Ico]
    refine ⟨hb0, ?_⟩
    have : (preJitterInterval (reviewedPreSchedule c d rt) d : ℚ) ≤ 9 := by exact_mod_cast h
    linarith
  refine ⟨hv, ?_⟩
  show schedule_next_review _ d off1 = schedule_next_review _ d off2
  simp only [schedule_next_review, hv]
  norm_num

/-- Witness for C10 at a concrete input: the first GOOD review of a fresh
card has pre-jitter interval 1 ≤ 9, so two different jitter draws give the
same result. -/
theorem c10_witness :
    preJitterInterval (reviewedPreSchedule initCard DifficultyLevel.good none)
        DifficultyLevel.good ≤ 9 ∧
      review_card initCard DifficultyLevel.good none 5 =
        review_card initCard DifficultyLevel.good none (-3) := by
  have h : preJitterInterval (reviewedPreSchedule initCard DifficultyLevel.good none)
      DifficultyLevel.good ≤ 9 := by
    norm_num [preJitterInterval, reviewedPreSchedule, update_card_status,
      handle_correct_review, applyResponseTime, initCard]
  exact ⟨h, (c10_small_intervals_deterministic initCard DifficultyLevel.good none 5 (-3) h).2⟩

lemma review_card_status (c : Flashcard) (d : DifficultyLevel) (rt : Option ℚ) (off : ℤ) :
    (review_card c d rt off).status = (reviewedPreSchedule c d rt).status := rfl

lemma review_status_ne_new (c : Flashcard) (d : DifficultyLevel) (rt : Option ℚ) (off : ℤ) :
    (review_card c d rt off).status ≠ CardStatus.new := by
  rw [review_card_status]
  cases d <;>
    · simp only [reviewedPreSchedule, update_card_status, handle_incorrect_review,
        handle_correct_review]
      split_ifs <;>
        simp_all [applyResponseTime_total, applyResponseTime_reps]

lemma first_review_status (c : Flashcard) (d : DifficultyLevel) (rt : Option ℚ) (off : ℤ)
    (h0 : c.total_reviews = 0) (h1 : c.repetitions = 0) :
    (review_card c d rt off).status = CardStatus.learning := by
  rw [review_card_status]
  cases d <;>
    simp [reviewedPreSchedule, update_card_status, handle_incorrect_review,
      handle_correct_review, applyResponseTime_total, applyResponseTime_reps, h0, h1]

lemma applyReviews_new_is_fresh (rs : List Review) :
    (applyReviews initCard rs).status = CardStatus.new →
      (applyReviews initCard rs).total_reviews = 0 ∧
        (applyReviews initCard rs).repetitions = 0 := by
  suffices h : ∀ (rs : List Review) (c : Flashcard),
      (c.status = CardStatus.new → c.total_reviews = 0 ∧ c.repetitions = 0) →
      ((applyReviews c rs).status = CardStatus.new →
        (applyReviews c rs).total_reviews = 0 ∧ (applyReviews c rs).repetitions = 0) by
    exact h rs initCard (fun _ => ⟨rfl, rfl⟩)
  intro rs
  induction rs with
  | nil => intro c hc; exact hc
  | cons r rs ih =>
    intro c _
    apply ih
    intro hnew
    exact absurd hnew (review_status_ne_new c r.grade r.rt r.off)

lemma goodStep1 : review_card initCard DifficultyLevel.good none 0 =
    ⟨CardStatus.learning, 5/2, 1, 1, 1, 1, 1, 1, 0, 0, 3/20, 1, 0⟩ := by
  norm_num [review_card, reviewedPreSchedule, schedule_next_review, preJitterInterval,
    jitterVariance, pyTrunc, update_card_status, handle_incorrect_review,
    handle_correct_review, applyResponseTime, get_accuracy_rate, initCard]

lemma goodStep2 :
    review_card (⟨CardStatus.learning, 5/2, 1, 1, 1, 1, 1, 1, 0, 0, 3/20, 1, 0⟩ : Flashcard)
      DifficultyLevel.good none 0 =
    ⟨CardStatus.learning, 5/2, 6, 2, 2, 2, 2, 2, 0, 0, 51/200, 1, 0⟩ := by
  norm_num [review_card, reviewedPreSchedule, schedule_next_review, preJitterInterval,
    jitterVariance, pyTrunc, update_card_status, handle_incorrect_review,
    handle_correct_review, applyResponseTime, get_accuracy_rate]

lemma goodStep3 :
    review_card (⟨CardStatus.learning, 5/2, 6, 2, 2, 2, 2, 2, 0, 0, 51/200, 1, 0⟩ : Flashcard)
      DifficultyLevel.good none 0 =
    ⟨CardStatus.mastered, 5/2, 15, 3, 3, 3, 3, 3, 0, 0, 657/2000, 1, 0⟩ := by
  norm_num [review_card, reviewedPreSchedule, schedule_next_review, preJitterInterval,
    jitterVariance, pyTrunc, update_card_status, handle_incorrect_review,
    handle_correct_review, applyResponseTime, get_accuracy_rate]

lemma goodTriple :
    applyReviews initCard
      [⟨DifficultyLevel.good, none, 0⟩, ⟨DifficultyLevel.good, none, 0⟩,
        ⟨DifficultyLevel.good, none, 0⟩] =
    ⟨CardStatus.mastered, 5/2, 15, 3, 3, 3, 3, 3, 0, 0, 657/2000, 1, 0⟩ := by
  show review_card (review_card (review_card initCard DifficultyLevel.good none 0)
      DifficultyLevel.good none 0) DifficultyLevel.good none 0 = _
  rw [goodStep1, goodStep2, goodStep3]

lemma masteredLapse :
    (review_card (⟨CardStatus.mastered, 5/2, 15, 3, 3, 3, 3, 3, 0, 0, 657/2000, 1, 0⟩ : Flashcard)
      DifficultyLevel.again none 0).status = CardStatus.learning := by
  norm_num [review_card_status, reviewedPreSchedule, update_card_status,
    handle_incorrect_review, applyResponseTime]

/-- Counterexample to C5 as stated: three GOOD reviews of a fresh card reach
Mastered; grading that card AGAIN drops it to Learning, a one-step transition
Mastered → Learning that is not an edge of the graph the spec names
New → Learning → (Review ⇄ Mastered). -/
theorem c5_counterexample :
    (applyReviews initCard
        [⟨DifficultyLevel.good, none, 0⟩, ⟨DifficultyLevel.good, none, 0⟩,
          ⟨DifficultyLevel.good, none, 0⟩]).status = CardStatus.mastered ∧
      (review_card (applyReviews initCard
          [⟨DifficultyLevel.good, none, 0⟩, ⟨DifficultyLevel.good, none, 0⟩,
            ⟨DifficultyLevel.good, none, 0⟩]) DifficultyLevel.again none 0).status =
        CardStatus.learning ∧
      ¬ specStatusGraph CardStatus.mastered CardStatus.learning := by
  rw [goodTriple]
  exact ⟨rfl, masteredLapse, by decide⟩

/-- Claim C5 amended: for every reachable card and every review, the one-step
status transition lies in the spec graph extended with the lapse regressions
Review → Learning and Mastered → Learning; moreover the post-review status is
never New (so in particular a card never moves from Mastered to New). -/
theorem c5_amended_status_graph (rs : List Review) (d : DifficultyLevel)
    (rt : Option ℚ) (off : ℤ) :
    lapseStatusGraph (applyReviews initCard rs).status
        (review_card (applyReviews initCard rs) d rt off).status ∧
      (review_card (applyReviews initCard rs) d rt off).status ≠ CardStatus.new := by
  have hpost := review_status_ne_new (applyReviews initCard rs) d rt off
  refine ⟨?_, hpost⟩
  by_cases h : (applyReviews initCard rs).status = CardStatus.new
  · have h0 := applyReviews_new_is_fresh rs h
    have hl := first_review_status (applyReviews initCard rs) d rt off h0.1 h0.2
    rw [h, hl]
    decide
  · cases hs : (applyReviews initCard rs).status <;>
      cases hp : (review_card (applyReviews initCard rs) d rt off).status <;>
        first
          | exact absurd hs h
          | exact absurd hp hpost
          | decide

lemma againStep1 : review_card initCard DifficultyLevel.again none 0 =
    ⟨CardStatus.learning, 5/2, 1, 0, 1, 0, 0, 0, 0, 0, 2/5, 9/10, 1⟩ := by
  norm_num [review_card, reviewedPreSchedule, schedule_next_review, preJitterInterval,
    jitterVariance, pyTrunc, update_card_status, handle_incorrect_review,
    handle_correct_review, applyResponseTime, get_accuracy_rate, initCard]

lemma aggeStep2 :
    review_card (⟨CardStatus.learning, 5/2, 1, 0, 1, 0, 0, 0, 0, 0, 2/5, 9/10, 1⟩ : Flashcard)
      DifficultyLevel.good none 0 =
    ⟨CardStatus.learning, 5/2, 1, 1, 2, 1, 1, 1, 0, 0, 43/100, 9/10, 1⟩ := by
  norm_num [review_card, reviewedPreSchedule, schedule_next_review, preJitterInterval,
    jitterVariance, pyTrunc, update_card_status, handle_incorrect_review,
    handle_correct_review, applyResponseTime, get_accuracy_rate]

lemma aggeStep3 :
    review_card (⟨CardStatus.learning, 5/2, 1, 1, 2, 1, 1, 1, 0, 0, 43/100, 9/10, 1⟩ : Flashcard)
      DifficultyLevel.good none 0 =
    ⟨CardStatus.learning, 5/2, 6, 2, 3, 2, 2, 2, 0, 0, 451/1000, 9/10, 1⟩ := by
  norm_num [review_card, reviewedPreSchedule, schedule_next_review, preJitterInterval,
    jitterVariance, pyTrunc, update_card_status, handle_incorrect_review,
    handle_correct_review, applyResponseTime, get_accuracy_rate]

/-- The card reached from a fresh card by the reviews AGAIN, GOOD, GOOD
(each with no response time and jitter draw 0). -/
def aggCard : Flashcard :=
  ⟨CardStatus.learning, 5/2, 6, 2, 3, 2, 2, 2, 0, 0, 451/1000, 9/10, 1⟩

lemma aggeStep4 :
    review_card aggCard DifficultyLevel.easy none 0 =
    ⟨CardStatus.review, 53/20, 15, 3, 4, 3, 3, 3, 0, 0, 3757/10000, 1, 1⟩ := by
  norm_num [aggCard, review_card, reviewedPreSchedule, schedule_next_review,
    preJitterInterval, jitterVariance, pyTrunc, update_card_status,
    handle_incorrect_review, handle_correct_review, applyResponseTime, get_accuracy_rate]

lemma aggeTrace :
    applyReviews initCard
      [⟨DifficultyLevel.again, none, 0⟩, ⟨DifficultyLevel.good, none, 0⟩,
        ⟨DifficultyLevel.good, none, 0⟩, ⟨DifficultyLevel.easy, none, 0⟩] =
    ⟨CardStatus.review, 53/20, 15, 3, 4, 3, 3, 3, 0, 0, 3757/10000, 1, 1⟩ := by
  show review_card (review_card (review_card (review_card initCard
      DifficultyLevel.again none 0) DifficultyLevel.good none 0)
      DifficultyLevel.good none 0) DifficultyLevel.easy none 0 = _
  rw [againStep1, aggeStep2, aggeStep3]
  exact aggeStep4

lemma aggPreScheduleEasy :
    reviewedPreSchedule aggCard DifficultyLevel.easy none =
    ⟨CardStatus.review, 53/20, 6, 3, 4, 3, 3, 3, 0, 0, 3757/10000, 1, 1⟩ := by
  norm_num [aggCard, reviewedPreSchedule, update_card_status, handle_correct_review,
    applyResponseTime, get_accuracy_rate]

/-- Counterexample to C1 as stated: for the (reachable) card `aggCard` —
a fresh card after AGAIN, GOOD, GOOD — graded EASY, the post-update
repetition count is 3 (neither 1 nor 2), the product
interval_days · ease_factor · learning_velocity is 6 · 2.65 · 1.0 = 15.9,
the code computes `max(1, int(15.9)) = 15`, while the claimed
`max(1, round(15.9))` is 16. -/
theorem c1_counterexample :
    (reviewedPreSchedule aggCard DifficultyLevel.easy none).repetitions = 3 ∧
      preJitterInterval (reviewedPreSchedule aggCard DifficultyLevel.easy none)
        DifficultyLevel.easy = 15 ∧
      max 1 (round (((reviewedPreSchedule aggCard DifficultyLevel.easy none).interval_days : ℚ) *
          (reviewedPreSchedule aggCard DifficultyLevel.easy none).ease_factor *
          (reviewedPreSchedule aggCard DifficultyLevel.easy none).learning_velocity)) = 16 ∧
      (15 : ℤ) ≠ 16 := by
  rw [aggPreScheduleEasy]
  refine ⟨rfl, ?_, ?_, by norm_num⟩
  · norm_num [preJitterInterval, pyTrunc]
  · rw [round_eq]
    norm_num

/-- Claim C1 amended: in the non-AGAIN branch with post-update repetitions
neither 1 nor 2, the pre-jitter, pre-clamp interval is
`max(1, trunc(interval_days · ease_factor · learning_velocity))` where trunc
is Python `int()` (truncation toward zero), not rounding to nearest. -/
theorem c1_amended_interval_formula (c : Flashcard) (d : DifficultyLevel) (rt : Option ℚ)
    (hd : d ≠ DifficultyLevel.again)
    (h1 : (reviewedPreSchedule c d rt).repetitions ≠ 1)
    (h2 : (reviewedPreSchedule c d rt).repetitions ≠ 2) :
    preJitterInterval (reviewedPreSchedule c d rt) d =
      max 1 (pyTrunc (((reviewedPreSchedule c d rt).interval_days : ℚ) *
        (reviewedPreSchedule c d rt).ease_factor *
        (reviewedPreSchedule c d rt).learning_velocity)) := by
  cases d with
  | again => exact absurd rfl hd
  | hard => simp [preJitterInterval, h1, h2]
  | good => simp [preJitterInterval, h1, h2]
  | easy => simp [preJitterInterval, h1, h2]

/-- Witness for the amended C1 at the concrete card `aggCard` graded EASY. -/
theorem c1_amended_witness :
    DifficultyLevel.easy ≠ DifficultyLevel.again ∧
      (reviewedPreSchedule aggCard DifficultyLevel.easy none).repetitions ≠ 1 ∧
      (reviewedPreSchedule aggCard DifficultyLevel.easy none).repetitions ≠ 2 ∧
      preJitterInterval (reviewedPreSchedule aggCard DifficultyLevel.easy none)
          DifficultyLevel.easy =
        max 1 (pyTrunc (((reviewedPreSchedule aggCard DifficultyLevel.easy none).interval_days : ℚ) *
          (reviewedPreSchedule aggCard DifficultyLevel.easy none).ease_factor *
          (reviewedPreSchedule aggCard DifficultyLevel.easy none).learning_velocity)) := by
  have h1 : (reviewedPreSchedule aggCard DifficultyLevel.easy none).repetitions ≠ 1 := by
    rw [aggPreScheduleEasy]; norm_num
  have h2 : (reviewedPreSchedule aggCard DifficultyLevel.easy none).repetitions ≠ 2 := by
    rw [aggPreScheduleEasy]; norm_num
  exact ⟨by decide, h1, h2,
    c1_amended_interval_formula aggCard DifficultyLevel.easy none (by decide) h1 h2⟩

/-- Counterexample to C4 as stated: after AGAIN, GOOD, GOOD, EASY with
jitter 0, the learning velocity is 1.0 (the AGAIN review lowered it to 0.9
and EASY restored it to 1.0, so it never reached 1.1) and the interval is
15 = int(6 · 2.65 · 1.0), not 17. -/
theorem c4_counterexample :
    (applyReviews initCard
        [⟨DifficultyLevel.again, none, 0⟩, ⟨DifficultyLevel.good, none, 0⟩,
          ⟨DifficultyLevel.good, none, 0⟩, ⟨DifficultyLevel.easy, none, 0⟩]).learning_velocity
        ≠ 11/10 ∧
      (applyReviews initCard
        [⟨DifficultyLevel.again, none, 0⟩, ⟨DifficultyLevel.good, none, 0⟩,
          ⟨DifficultyLevel.good, none, 0⟩, ⟨DifficultyLevel.easy, none, 0⟩]).interval_days
        ≠ 17 := by
  rw [aggeTrace]
  norm_num

/-- Claim C4 amended: after AGAIN, GOOD, GOOD, EASY with jitter 0 the card
has ease_factor 2.65, repetitions 3, learning_velocity 1.0,
interval_days 15 = int(6 · 2.65 · 1.0), accuracy 3/4, and stays in Review
(not Mastered, since 3/4 < 0.8). -/
theorem c4_amended_scenario :
    (applyReviews initCard
        [⟨DifficultyLevel.again, none, 0⟩, ⟨DifficultyLevel.good, none, 0⟩,
          ⟨DifficultyLevel.good, none, 0⟩, ⟨DifficultyLevel.easy, none, 0⟩]).ease_factor
        = 53/20 ∧
      (applyReviews initCard
        [⟨DifficultyLevel.again, none, 0⟩, ⟨DifficultyLevel.good, none, 0⟩,
          ⟨DifficultyLevel.good, none, 0⟩, ⟨DifficultyLevel.easy, none, 0⟩]).repetitions = 3 ∧
      (applyReviews initCard
        [⟨DifficultyLevel.again, none, 0⟩, ⟨DifficultyLevel.good, none, 0⟩,
          ⟨DifficultyLevel.good, none, 0⟩, ⟨DifficultyLevel.easy, none, 0⟩]).learning_velocity
        = 1 ∧
      (applyReviews initCard
        [⟨DifficultyLevel.again, none, 0⟩, ⟨DifficultyLevel.good, none, 0⟩,
          ⟨DifficultyLevel.good, none, 0⟩, ⟨DifficultyLevel.easy, none, 0⟩]).interval_days
        = 15 ∧
      (applyReviews initCard
        [⟨DifficultyLevel.again, none, 0⟩, ⟨DifficultyLevel.good, none, 0⟩,
          ⟨DifficultyLevel.good, none, 0⟩, ⟨DifficultyLevel.easy, none, 0⟩]).status
        = CardStatus.review ∧
      get_accuracy_rate (applyReviews initCard
        [⟨DifficultyLevel.again, none, 0⟩, ⟨DifficultyLevel.good, none, 0⟩,
          ⟨DifficultyLevel.good, none, 0⟩, ⟨DifficultyLevel.easy, none, 0⟩]) = 3/4 := by
  rw [aggeTrace]
  norm_num [get_accuracy_rate]

/-- Counterexample to C6 as stated: closing a session that recorded nothing
but was open for 20 minutes yields all-zero counts yet a quality score of
0.2 (the duration factor is 1 in the 15-45 minute band), not 0. -/
theorem c6_counterexample :
    (end_session initSession 20).cards_reviewed = 0 ∧
      (end_session initSession 20).session_quality_score = 1/5 ∧
      (1/5 : ℚ) ≠ 0 := by
  norm_num [end_session, initSession, calculate_quality_score, duration_factor]

/-- Claim C6 amended: closing a never-recorded session always succeeds and
yields all-zero counts, zero accuracy and zero focus, but the quality score
is `0.2 · duration_factor(minutes)` — zero only when the session lasted
less than one whole minute (e.g. elapsed 0), not regardless of duration. -/
theorem c6_amended_empty_session (m : ℕ) :
    (end_session initSession m).cards_reviewed = 0 ∧
      (end_session initSession m).cards_correct = 0 ∧
      (end_session initSession m).cards_incorrect = 0 ∧
      (end_session initSession m).accuracy_rate = 0 ∧
      (end_session initSession m).focus_score = 0 ∧
      (end_session initSession m).session_quality_score = duration_factor m * (1/5) ∧
      (end_session initSession 0).session_quality_score = 0 := by
  refine ⟨rfl, rfl, rfl, rfl, rfl, ?_, ?_⟩
  · show calculate_quality_score _ = _
    norm_num [calculate_quality_score, initSession]
  · norm_num [end_session, initSession, calculate_quality_score, duration_factor]

lemma review_card_time_tracking (c : Flashcard) (d : DifficultyLevel) (off : ℤ)
    (t : ℚ) (hne : t ≠ 0) :
    (review_card c d (some t) off).total_reviews = c.total_reviews + 1 ∧
      (review_card c d (some t) off).total_study_time_seconds =
        c.total_study_time_seconds + t ∧
      (review_card c d (some t) off).average_response_time_seconds =
        (c.total_study_time_seconds + t) / ((c.total_reviews : ℚ) + 1) := by
  cases d <;>
    simp [review_card, schedule_next_review, reviewedPreSchedule, update_card_status,
      handle_incorrect_review, handle_correct_review, applyResponseTime, hne]

/-- Counterexample to C7 as stated: a review submitted with response time
exactly 0 on a card with one prior 10-second review is skipped by the Python
truthiness test `if response_time_seconds:` — total study time and average
stay at 10 instead of the average being recomputed as 10/2 = 5. -/
theorem c7_counterexample :
    (review_card (⟨CardStatus.learning, 5/2, 1, 1, 1, 1, 1, 1, 10, 10, 3/20, 1, 0⟩ : Flashcard)
        DifficultyLevel.good (some 0) 0).total_reviews = 2 ∧
      (review_card (⟨CardStatus.learning, 5/2, 1, 1, 1, 1, 1, 1, 10, 10, 3/20, 1, 0⟩ : Flashcard)
        DifficultyLevel.good (some 0) 0).total_study_time_seconds = 10 ∧
      (review_card (⟨CardStatus.learning, 5/2, 1, 1, 1, 1, 1, 1, 10, 10, 3/20, 1, 0⟩ : Flashcard)
        DifficultyLevel.good (some 0) 0).average_response_time_seconds = 10 ∧
      (review_card (⟨CardStatus.learning, 5/2, 1, 1, 1, 1, 1, 1, 10, 10, 3/20, 1, 0⟩ : Flashcard)
          DifficultyLevel.good (some 0) 0).average_response_time_seconds ≠
        (review_card (⟨CardStatus.learning, 5/2, 1, 1, 1, 1, 1, 1, 10, 10, 3/20, 1, 0⟩ : Flashcard)
            DifficultyLevel.good (some 0) 0).total_study_time_seconds /
          ((review_card (⟨CardStatus.learning, 5/2, 1, 1, 1, 1, 1, 1, 10, 10, 3/20, 1, 0⟩ : Flashcard)
            DifficultyLevel.good (some 0) 0).total_reviews : ℚ) := by
  have h : review_card (⟨CardStatus.learning, 5/2, 1, 1, 1, 1, 1, 1, 10, 10, 3/20, 1, 0⟩ : Flashcard)
      DifficultyLevel.good (some 0) 0 =
      ⟨CardStatus.learning, 5/2, 6, 2, 2, 2, 2, 2, 10, 10, 51/200, 1, 0⟩ := by
    norm_num [review_card, reviewedPreSchedule, schedule_next_review, preJitterInterval,
      jitterVariance, pyTrunc, update_card_status, handle_incorrect_review,
      handle_correct_review, applyResponseTime, get_accuracy_rate]
  rw [h]
  norm_num

/-- Claim C7 amended: for every review with a present and strictly positive
response time, `total_reviews` is incremented, the response time is added to
`total_study_time_seconds`, and the average becomes total study time divided
by the new review count.  (A response time of exactly 0 is skipped by the
truthiness test in the code, so the claim holds only for nonzero times.) -/
theorem c7_amended_running_mean (c : Flashcard) (d : DifficultyLevel) (off : ℤ)
    (t : ℚ) (ht : 0 < t) :
    (review_card c d (some t) off).total_reviews = c.total_reviews + 1 ∧
      (review_card c d (some t) off).total_study_time_seconds =
        c.total_study_time_seconds + t ∧
      (review_card c d (some t) off).average_response_time_seconds =
        (c.total_study_time_seconds + t) / ((c.total_reviews : ℚ) + 1) :=
  review_card_time_tracking c d off t (ne_of_gt ht)

/-- Witness for the amended C7: a fresh card reviewed GOOD with a 5-second
response time. -/
theorem c7_amended_witness :
    (0:ℚ) < 5 ∧
      ((review_card initCard DifficultyLevel.good (some 5) 0).total_reviews =
          initCard.total_reviews + 1 ∧
        (review_card initCard DifficultyLevel.good (some 5) 0).total_study_time_seconds =
          initCard.total_study_time_seconds + 5 ∧
        (review_card initCard DifficultyLevel.good (some 5) 0).average_response_time_seconds =
          (initCard.total_study_time_seconds + 5) / ((initCard.total_reviews : ℚ) + 1)) :=
  ⟨by norm_num, c7_amended_running_mean initCard DifficultyLevel.good 0 5 (by norm_num)⟩

/-- Counterexample to C8 as stated: a review with response time -5 on a
fresh card is not rejected anywhere (neither the API handler
`review_flashcard` nor `Flashcard.review_card` checks the sign): the
negative value is folded into the counters and the card is modified. -/
theorem c8_counterexample :
    (review_card initCard DifficultyLevel.good (some (-5)) 0).total_study_time_seconds
        = -5 ∧
      (review_card initCard DifficultyLevel.good (some (-5)) 0).average_response_time_seconds
        = -5 ∧
      review_card initCard DifficultyLevel.good (some (-5)) 0 ≠ initCard := by
  have h : review_card initCard DifficultyLevel.good (some (-5)) 0 =
      ⟨CardStatus.learning, 5/2, 1, 1, 1, 1, 1, 1, -5, -5, 3/20, 1, 0⟩ := by
    norm_num [review_card, reviewedPreSchedule, schedule_next_review, preJitterInterval,
      jitterVariance, pyTrunc, update_card_status, handle_incorrect_review,
      handle_correct_review, applyResponseTime, get_accuracy_rate, initCard]
  rw [h]
  refine ⟨rfl, rfl, ?_⟩
  intro hEq
  have := congrArg Flashcard.total_reviews hEq
  simp [initCard] at this

/-- Claim C8 amended: a negative response time is accepted, not rejected —
the review proceeds, the negative value is added to the study-time total
(decreasing it) and folded into the average, and the card state is
modified. -/
theorem c8_amended_negative_time_accepted (c : Flashcard) (d : DifficultyLevel)
    (off : ℤ) (t : ℚ) (ht : t < 0) :
    (review_card c d (some t) off).total_reviews = c.total_reviews + 1 ∧
      (review_card c d (some t) off).total_study_time_seconds =
        c.total_study_time_seconds + t ∧
      (review_card c d (some t) off).average_response_time_seconds =
        (c.total_study_time_seconds + t) / ((c.total_reviews : ℚ) + 1) :=
  review_card_time_tracking c d off t (ne_of_lt ht)

/-- Witness for the amended C8: a fresh card reviewed GOOD with response
time -5. -/
theorem c8_amended_witness :
    (-5:ℚ) < 0 ∧
      ((review_card initCard DifficultyLevel.good (some (-5)) 0).total_reviews =
          initCard.total_reviews + 1 ∧
        (review_card initCard DifficultyLevel.good (some (-5)) 0).total_study_time_seconds =
          initCard.total_study_time_seconds + (-5) ∧
        (review_card initCard DifficultyLevel.good (some (-5)) 0).average_response_time_seconds =
          (initCard.total_study_time_seconds + (-5)) / ((initCard.total_reviews : ℚ) + 1)) :=
  ⟨by norm_num,
    c8_amended_negative_time_accepted initCard DifficultyLevel.good 0 (-5) (by norm_num)⟩
